import Mathlib

/-!
Verification of the Things 3 automation server (src/things3_server.py).

The development shallowly embeds the script builders, the response parsers,
the process invoker and the tool dispatcher of the Python source.  Strings are
Lean `String`s; the string-processing primitives of Python that the source
uses (`str.split`, `str.strip`, `str.lower`, `str.replace`, truthiness) are
given structural-recursive models over `List Char` so that every definition
evaluates by `decide` and `rfl`.  Exceptions are modelled with `Except`, the
external `osascript` process with an oracle `List String → RunOutcome`.

Conventions: a literal brace inside an AppleScript fragment is written with
the escapes \x7b and \x7d, and the ASCII apostrophe (which Python uses in a
few rendered messages) is the character `squote` below.  The source file
stores a few multi-byte characters in double-encoded (mojibake) form; those
exact code points are reproduced with \u escapes.
-/

set_option maxRecDepth 8192

/-- The ASCII apostrophe character (code point 39). -/
def squote : Char := Char.ofNat 39

/-- The ASCII apostrophe as a one-character string. -/
def squoteS : String := String.mk [squote]

/-- Model of Python string truthiness: a string is truthy iff it is nonempty. -/
def pyTruthy (s : String) : Bool := !s.data.isEmpty

/-- Truthiness of an optional string argument: `None` and `""` are falsy. -/
def pyTruthyOpt (o : Option String) : Bool :=
  match o with
  | none => false
  | some s => pyTruthy s

/-- The whitespace characters stripped by Python `str.strip()`
(space, tab, newline, carriage return, vertical tab, form feed). -/
def isPySpace (c : Char) : Bool :=
  c == ' ' || c == '\t' || c == '\n' || c == '\r' || c == Char.ofNat 11 || c == Char.ofNat 12

/-- Model of Python `str.strip()` on the character list. -/
def pyTrim (s : List Char) : List Char :=
  ((s.dropWhile isPySpace).reverse.dropWhile isPySpace).reverse

/-- Model of Python `str.strip()` on strings. -/
def pyStrip (s : String) : String := String.mk (pyTrim s.data)

/-- ASCII model of Python `str.lower()` on one character. -/
def lowerChar (c : Char) : Char :=
  if 65 ≤ c.toNat && c.toNat ≤ 90 then Char.ofNat (c.toNat + 32) else c

/-- ASCII model of Python `str.lower()`. -/
def pyLower (s : String) : String := String.mk (s.data.map lowerChar)

/-- `hasPrefixL pat s` decides whether `pat` is a leading segment of `s`. -/
def hasPrefixL : List Char → List Char → Bool
  | [], _ => true
  | _ :: _, [] => false
  | p :: ps, c :: cs => p == c && hasPrefixL ps cs

/-- `occursL pat s` decides whether `pat` occurs as a contiguous segment of `s`. -/
def occursL (pat : List Char) : List Char → Bool
  | [] => hasPrefixL pat []
  | c :: cs => hasPrefixL pat (c :: cs) || occursL pat cs

/-- Model of the Python `in` test on strings and of the AppleScript `contains`
operator: `containsStr s pat` holds iff `pat` occurs inside `s`. -/
def containsStr (s pat : String) : Bool := occursL pat.data s.data

/-- Model of Python `str.split("|||")`: split on every non-overlapping
occurrence of the triple pipe, leftmost first.  `cur` is the (reversed)
current field. -/
def splitPipes : List Char → List Char → List (List Char)
  | [], cur => [cur.reverse]
  | '|' :: '|' :: '|' :: rest, cur => cur.reverse :: splitPipes rest []
  | c :: rest, cur => splitPipes rest (c :: cur)

/-- Model of Python `str.split(",")`. -/
def splitComma : List Char → List Char → List (List Char)
  | [], cur => [cur.reverse]
  | ',' :: rest, cur => cur.reverse :: splitComma rest []
  | c :: rest, cur => splitComma rest (c :: cur)

/-- Model of Python `sep.join(parts)`. -/
def joinWith (sep : String) : List String → String
  | [] => ""
  | [x] => x
  | x :: y :: xs => x ++ sep ++ joinWith sep (y :: xs)

/-- `"\n".join`, as used for the assembled script parts. -/
def joinLines (parts : List String) : String := joinWith "\n" parts

/-- Model of Python `script.replace(squote, rep)` for the one-character
pattern used by the source. -/
def replaceSquote (rep : List Char) : List Char → List Char
  | [] => []
  | c :: rest =>
    if c = squote then rep ++ replaceSquote rep rest else c :: replaceSquote rep rest

/-- The five-character apostrophe-quote-apostrophe-quote-apostrophe
replacement text used by `execute_applescript`. -/
def shellQuoteRep : String := squoteS ++ "\"" ++ squoteS ++ "\"" ++ squoteS

/-- The `escaped_script` local of `execute_applescript`: every apostrophe of
the script replaced by `shellQuoteRep`. -/
def escaped_script (script : String) : String :=
  String.mk (replaceSquote shellQuoteRep.data script.data)

/-- Outcome of one `subprocess.run(["osascript", "-e", script], timeout=10)`
call: either the timeout fired, or the process finished with a return code
and captured stdout/stderr. -/
inductive RunOutcome where
  | timeout : RunOutcome
  | finished (returncode : Int) (stdout stderr : String) : RunOutcome

/-- The fixed timeout (seconds) passed to `subprocess.run`. -/
def osascript_timeout : Nat := 10

/-- The argument vector handed to `subprocess.run`. -/
def invoked_command (script : String) : List String := ["osascript", "-e", script]

/-- `Things3Controller.execute_applescript`.  The subprocess is an oracle
`run` from argument vectors to outcomes.  The Python body computes
`escaped_script` and then ignores it; on a non-zero return code it raises
`Exception("AppleScript error: " + stderr)`, which the generic handler
re-wraps as `"Failed to execute AppleScript: " + str(e)`; the
`TimeoutExpired` handler raises `"AppleScript execution timed out"`, which is
not re-wrapped because an exception raised inside an except clause is not
caught by the following clause of the same try. -/
def execute_applescript (run : List String → RunOutcome) (script : String) :
    Except String String :=
  let _escaped := escaped_script script
  match run (invoked_command script) with
  | RunOutcome.timeout => Except.error "AppleScript execution timed out"
  | RunOutcome.finished returncode stdout stderr =>
    if returncode ≠ 0 then
      Except.error ("Failed to execute AppleScript: AppleScript error: " ++ stderr)
    else
      Except.ok (pyStrip stdout)

/-- The `list_mapping` dictionary of `list_tasks`. -/
def list_mapping : List (String × String) :=
  [("today", "list \"Today\""),
   ("upcoming", "list \"Upcoming\""),
   ("anytime", "list \"Anytime\""),
   ("someday", "list \"Someday\""),
   ("inbox", "list \"Inbox\""),
   ("completed", "list \"Logbook\"")]

/-- The dictionary lookup of `list_tasks`: `list_mapping` consulted at the
lowered name, defaulting to the `Today` list specifier. -/
def things_list_specifier (list_name : String) : String :=
  (list_mapping.lookup (pyLower list_name)).getD "list \"Today\""

/-- Script rendered by `Things3Controller.add_task`.  A `None` or empty
optional field contributes no clause; `tags`, when nonempty, appends the
repeat block. -/
def add_task_script (title : String) (notes : String)
    (due_date area project : Option String) (tags : List String) : String :=
  let props0 := "    set newToDo to make new to do with properties \x7bname:\"" ++ title ++ "\""
  let props1 := if pyTruthy notes then props0 ++ ", notes:\"" ++ notes ++ "\"" else props0
  let props2 :=
    if pyTruthyOpt due_date then props1 ++ ", due date:date(\"" ++ due_date.getD "" ++ "\")"
    else props1
  let props3 :=
    if pyTruthyOpt area then props2 ++ ", area:\"" ++ area.getD "" ++ "\"" else props2
  let props4 :=
    if pyTruthyOpt project then props3 ++ ", project:\"" ++ project.getD "" ++ "\"" else props3
  let props5 := props4 ++ "\x7d"
  let parts0 := ["tell application \"Things3\"", props5]
  let parts1 :=
    if tags.isEmpty then parts0
    else parts0 ++
      ["    repeat with tagName in \x7b\"" ++ joinWith "\", \"" tags ++ "\"\x7d",
       "        set tag of newToDo to tagName",
       "    end repeat"]
  joinLines (parts1 ++ ["    return id of newToDo", "end tell"])

/-- Script rendered by `Things3Controller.list_tasks` (the f-string of lines
132-146; the two `Â¬` pairs reproduce the double-encoded
continuation character stored in the source file). -/
def list_tasks_script (list_name : String) (limit : Nat) : String :=
  "\n        tell application \"Things3\"\n            set taskList to \x7b\x7d\n            set todoList to to dos of "
  ++ things_list_specifier list_name
  ++ "\n            repeat with i from 1 to (count of todoList)\n                if i > "
  ++ toString limit
  ++ " then exit repeat\n                set thisToDo to item i of todoList\n                set taskInfo to (name of thisToDo) & \"|||\" & (id of thisToDo) & \"|||\" & Â¬\n                    (notes of thisToDo) & \"|||\" & (due date of thisToDo) & \"|||\" & Â¬\n                    (creation date of thisToDo) & \"|||\" & (status of thisToDo)\n                set end of taskList to taskInfo\n            end repeat\n            return taskList as string\n        end tell\n        "

/-- Script rendered by `Things3Controller.complete_task` (lines 171-187). -/
def complete_task_script (task_identifier : String) : String :=
  "\n        tell application \"Things3\"\n            try\n                set completedToDo to to do id \""
  ++ task_identifier
  ++ "\"\n                set status of completedToDo to completed\n                return \"Task completed successfully (found by ID)\"\n            on error\n                try\n                    set completedToDo to to do \""
  ++ task_identifier
  ++ "\"\n                    set status of completedToDo to completed\n                    return \"Task completed successfully (found by title)\"\n                on error\n                    return \"Task not found: "
  ++ task_identifier
  ++ "\"\n                end try\n            end try\n        end tell\n        "

/-- Script rendered by `Things3Controller.search_tasks` (lines 194-207; the
`â‰¥` triple reproduces the double-encoded comparison
character stored in the source file). -/
def search_tasks_script (query : String) (limit : Nat) : String :=
  "\n        tell application \"Things3\"\n            set searchResults to \x7b\x7d\n            set allToDos to to dos\n            repeat with thisToDo in allToDos\n                if (name of thisToDo) contains \""
  ++ query
  ++ "\" or (notes of thisToDo) contains \""
  ++ query
  ++ "\" then\n                    set taskInfo to (name of thisToDo) & \"|||\" & (id of thisToDo) & \"|||\" & (status of thisToDo)\n                    set end of searchResults to taskInfo\n                    if (count of searchResults) â‰¥ "
  ++ toString limit
  ++ " then exit repeat\n                end if\n            end repeat\n            return searchResults as string\n        end tell\n        "

/-- The `status_filter` computed by `list_projects`. -/
def status_filter_clause (status : String) : String :=
  if status = "open" then "whose status is open"
  else if status = "completed" then "whose status is completed"
  else ""

/-- Script rendered by `Things3Controller.list_projects` (lines 235-245). -/
def list_projects_script (status : String) : String :=
  "\n        tell application \"Things3\"\n            set projectList to \x7b\x7d\n            set allProjects to projects "
  ++ status_filter_clause status
  ++ "\n            repeat with thisProject in allProjects\n                set projectInfo to (name of thisProject) & \"|||\" & (id of thisProject) & \"|||\" & (status of thisProject)\n                set end of projectList to projectInfo\n            end repeat\n            return projectList as string\n        end tell\n        "

/-- Script rendered by `Things3Controller.add_project` (lines 267-288). -/
def add_project_script (title : String) (notes : String) (area : Option String)
    (whenArg : String) : String :=
  let props0 := "    set newProject to make new project with properties \x7bname:\"" ++ title ++ "\""
  let props1 := if pyTruthy notes then props0 ++ ", notes:\"" ++ notes ++ "\"" else props0
  let props2 :=
    if pyTruthyOpt area then props1 ++ ", area:\"" ++ area.getD "" ++ "\"" else props1
  let props3 := props2 ++ "\x7d"
  let parts0 := ["tell application \"Things3\"", props3]
  let parts1 :=
    if whenArg = "today" then parts0 ++ ["    set start date of newProject to current date"]
    else parts0
  joinLines (parts1 ++ ["    return id of newProject", "end tell"])

/-- Script rendered by `Things3Controller.get_daily_overview` (lines 294-330;
the \u escape groups reproduce the double-encoded characters stored in the
source file, and the comment line of the script contains an apostrophe). -/
def get_daily_overview_script : String :=
  "\n        tell application \"Things3\"\n            set overview to \"\"\n            \n            -- Today"
  ++ squoteS
  ++ "s tasks\n            set todayTasks to to dos of list \"Today\"\n            set overview to overview & \"ðŸ“… TODAY (\" & (count of todayTasks) & \" tasks):\" & return\n            repeat with thisToDo in todayTasks\n                set overview to overview & \"â€¢ \" & (name of thisToDo)\n                if (due date of thisToDo) is not missing value then\n                    set overview to overview & \" (Due: \" & (due date of thisToDo) & \")\"\n                end if\n                set overview to overview & return\n            end repeat\n            \n            -- Upcoming tasks\n            set upcomingTasks to to dos of list \"Upcoming\"\n            set overview to overview & return & \"â° UPCOMING (\" & (count of upcomingTasks) & \" tasks):\" & return\n            repeat with thisToDo in upcomingTasks\n                set overview to overview & \"â€¢ \" & (name of thisToDo)\n                if (due date of thisToDo) is not missing value then\n                    set overview to overview & \" (Due: \" & (due date of thisToDo) & \")\"\n                end if\n                set overview to overview & return\n            end repeat\n            \n            -- Active projects\n            set openProjects to projects whose status is open\n            set overview to overview & return & \"ðŸ“ ACTIVE PROJECTS (\" & (count of openProjects) & \"):\" & return\n            repeat with thisProject in openProjects\n                set projectTasks to to dos of thisProject whose status is open\n                set overview to overview & \"â€¢ \" & (name of thisProject) & \" (\" & (count of projectTasks) & \" tasks)\" & return\n            end repeat\n            \n            return overview\n        end tell\n        "

/-- Script rendered by `Things3Controller.update_task` (lines 338-376).  The
lone four-space element of the Python parts list is kept. -/
def update_task_script (task_identifier : String)
    (title notes due_date : Option String) : String :=
  let parts0 :=
    ["tell application \"Things3\"",
     "    try",
     "        set targetToDo to to do id \"" ++ task_identifier ++ "\"",
     "    on error",
     "        try",
     "            set targetToDo to to do \"" ++ task_identifier ++ "\"",
     "        on error",
     "            return \"Task not found\"",
     "        end try",
     "    end try",
     "    ",
     "    set updateResult to \"\""]
  let parts1 :=
    if pyTruthyOpt title then parts0 ++
      ["    set name of targetToDo to \"" ++ title.getD "" ++ "\"",
       "    set updateResult to updateResult & \"Title updated. \""]
    else parts0
  let parts2 :=
    if pyTruthyOpt notes then parts1 ++
      ["    set notes of targetToDo to \"" ++ notes.getD "" ++ "\"",
       "    set updateResult to updateResult & \"Notes updated. \""]
    else parts1
  let parts3 :=
    if pyTruthyOpt due_date then parts2 ++
      ["    set due date of targetToDo to date(\"" ++ due_date.getD "" ++ "\")",
       "    set updateResult to updateResult & \"Due date updated. \""]
    else parts2
  joinLines (parts3 ++ ["    return updateResult", "end tell"])

/-- Structured record built by the `list_tasks` parsing loop (the Python
dict of lines 157-164). -/
structure TaskOut where
  title : String
  id : String
  notes : String
  due_date : Option String
  creation_date : Option String
  status : String
deriving DecidableEq, Repr

/-- Structured record built by the `search_tasks` parsing loop. -/
structure SearchOut where
  title : String
  id : String
  status : String
deriving DecidableEq, Repr

/-- Structured record built by the `list_projects` parsing loop. -/
structure ProjectOut where
  title : String
  id : String
  status : String
deriving DecidableEq, Repr

/-- One record of the `list_tasks` parser: requires at least six fields
(`len(parts) >= 6`), strips each used field, and maps the sentinel
`"missing value"` in the notes, due-date and creation-date positions to an
empty or absent value. -/
def parse_task_parts (parts : List (List Char)) : Option TaskOut :=
  match parts with
  | p0 :: p1 :: p2 :: p3 :: p4 :: p5 :: _ =>
    let notesV := String.mk (pyTrim p2)
    let dueV := String.mk (pyTrim p3)
    let creationV := String.mk (pyTrim p4)
    some
      { title := String.mk (pyTrim p0),
        id := String.mk (pyTrim p1),
        notes := if notesV ≠ "missing value" then notesV else "",
        due_date := if dueV ≠ "missing value" then some dueV else none,
        creation_date := if creationV ≠ "missing value" then some creationV else none,
        status := String.mk (pyTrim p5) }
  | _ => none

/-- The parsing loop of `list_tasks` (lines 148-166): empty output yields no
records; otherwise split on commas, keep the lines containing `|||`, and keep
every line whose pipe split has at least six fields. -/
def parse_list_tasks_result (result : String) : List TaskOut :=
  if !pyTruthy result then []
  else
    (splitComma result.data []).filterMap fun task_line =>
      if occursL "|||".data task_line then parse_task_parts (splitPipes task_line [])
      else none

/-- One record of the `search_tasks` parser: requires at least three fields
and strips them; no sentinel mapping is performed. -/
def parse_search_parts (parts : List (List Char)) : Option SearchOut :=
  match parts with
  | p0 :: p1 :: p2 :: _ =>
    some
      { title := String.mk (pyTrim p0),
        id := String.mk (pyTrim p1),
        status := String.mk (pyTrim p2) }
  | _ => none

/-- The parsing loop of `search_tasks` (lines 209-224). -/
def parse_search_tasks_result (result : String) : List SearchOut :=
  if !pyTruthy result then []
  else
    (splitComma result.data []).filterMap fun task_line =>
      if occursL "|||".data task_line then parse_search_parts (splitPipes task_line [])
      else none

/-- One record of the `list_projects` parser: requires at least three fields
and strips them; no sentinel mapping is performed. -/
def parse_project_parts (parts : List (List Char)) : Option ProjectOut :=
  match parts with
  | p0 :: p1 :: p2 :: _ =>
    some
      { title := String.mk (pyTrim p0),
        id := String.mk (pyTrim p1),
        status := String.mk (pyTrim p2) }
  | _ => none

/-- The parsing loop of `list_projects` (lines 247-262). -/
def parse_list_projects_result (result : String) : List ProjectOut :=
  if !pyTruthy result then []
  else
    (splitComma result.data []).filterMap fun project_line =>
      if occursL "|||".data project_line then parse_project_parts (splitPipes project_line [])
      else none

/-- `Things3Controller.add_task`: render the script and execute it. -/
def add_task (run : List String → RunOutcome) (title notes : String)
    (due_date area project : Option String) (tags : List String) : Except String String :=
  execute_applescript run (add_task_script title notes due_date area project tags)

/-- `Things3Controller.list_tasks`: render, execute, parse. -/
def list_tasks (run : List String → RunOutcome) (list_name : String) (limit : Nat) :
    Except String (List TaskOut) :=
  match execute_applescript run (list_tasks_script list_name limit) with
  | Except.error e => Except.error e
  | Except.ok result => Except.ok (parse_list_tasks_result result)

/-- `Things3Controller.complete_task`: render and execute. -/
def complete_task (run : List String → RunOutcome) (task_identifier : String) :
    Except String String :=
  execute_applescript run (complete_task_script task_identifier)

/-- `Things3Controller.search_tasks`: render, execute, parse. -/
def search_tasks (run : List String → RunOutcome) (query : String) (limit : Nat) :
    Except String (List SearchOut) :=
  match execute_applescript run (search_tasks_script query limit) with
  | Except.error e => Except.error e
  | Except.ok result => Except.ok (parse_search_tasks_result result)

/-- `Things3Controller.list_projects`: render, execute, parse. -/
def list_projects (run : List String → RunOutcome) (status : String) :
    Except String (List ProjectOut) :=
  match execute_applescript run (list_projects_script status) with
  | Except.error e => Except.error e
  | Except.ok result => Except.ok (parse_list_projects_result result)

/-- `Things3Controller.add_project`: render and execute. -/
def add_project (run : List String → RunOutcome) (title notes : String)
    (area : Option String) (whenArg : String) : Except String String :=
  execute_applescript run (add_project_script title notes area whenArg)

/-- `Things3Controller.get_daily_overview`: execute the fixed script. -/
def get_daily_overview (run : List String → RunOutcome) : Except String String :=
  execute_applescript run get_daily_overview_script

/-- `Things3Controller.update_task`: render and execute.  The `tags`
parameter exists in the Python signature but is never used. -/
def update_task (run : List String → RunOutcome) (task_identifier : String)
    (title notes due_date : Option String) (tags : Option (List String)) :
    Except String String :=
  execute_applescript run (update_task_script task_identifier title notes due_date)

/-- A task as held by the external application, with its six queried
properties already rendered to text. -/
structure ExtTask where
  name : String
  id : String
  notes : String
  due_date : String
  creation_date : String
  status : String
deriving DecidableEq, Repr

/-- The `taskInfo` expression of the `list_tasks` script. -/
def list_task_info (t : ExtTask) : String :=
  t.name ++ "|||" ++ t.id ++ "|||" ++ t.notes ++ "|||" ++ t.due_date ++ "|||" ++
    t.creation_date ++ "|||" ++ t.status

/-- The `taskInfo` expression of the `search_tasks` script. -/
def search_task_info (t : ExtTask) : String :=
  t.name ++ "|||" ++ t.id ++ "|||" ++ t.status

/-- Semantics of the repeat loop in the `list_tasks` script, by direct
transcription: with `i` counting from 1, each iteration first tests
`if i > limit then exit repeat` and only then extracts the fields of item
`i`.  Returns the accumulated `taskList` together with the number of items
whose fields were actually extracted. -/
def list_tasks_loop (limit : Nat) : Nat → List ExtTask → List String × Nat
  | _, [] => ([], 0)
  | i, t :: ts =>
    if i > limit then ([], 0)
    else
      let rest := list_tasks_loop limit (i + 1) ts
      (list_task_info t :: rest.1, rest.2 + 1)

/-- The `list_tasks` loop started at index 1. -/
def list_tasks_traversal (limit : Nat) (todos : List ExtTask) : List String × Nat :=
  list_tasks_loop limit 1 todos

/-- Semantics of the repeat loop in the `search_tasks` script, by direct
transcription: each item is tested for a match; on a match its record is
appended, and only then `if (count of searchResults) ≥ limit then exit
repeat` is evaluated.  Returns the accumulated `searchResults` together with
the number of items examined. -/
def search_tasks_loop (limit : Nat) (query : String) :
    List ExtTask → List String → List String × Nat
  | [], acc => (acc, 0)
  | t :: ts, acc =>
    if containsStr t.name query || containsStr t.notes query then
      let acc2 := acc ++ [search_task_info t]
      if acc2.length ≥ limit then (acc2, 1)
      else
        let rest := search_tasks_loop limit query ts acc2
        (rest.1, rest.2 + 1)
    else
      let rest := search_tasks_loop limit query ts acc
      (rest.1, rest.2 + 1)

/-- The `search_tasks` loop started with an empty accumulator. -/
def search_tasks_traversal (limit : Nat) (query : String) (todos : List ExtTask) :
    List String × Nat :=
  search_tasks_loop limit query todos []

/-- Modelled from the spec: the external application flattens the collected
record list into the comma-separated raw response text that the parser
consumes (spec section 6: "plain text, possibly multi-record
comma/triple-pipe delimited"). -/
def raw_response (records : List String) : String := joinWith ", " records

/-- Evaluation of the try/on-error chain in the script rendered by
`complete_task`, as a function of whether the id lookup and the title lookup
succeed: the id lookup is attempted first; on error the title lookup; on
error the not-found literal carrying the identifier is returned. -/
def complete_task_outcome (idFound titleFound : Bool) (task_identifier : String) : String :=
  if idFound then "Task completed successfully (found by ID)"
  else if titleFound then "Task completed successfully (found by title)"
  else "Task not found: " ++ task_identifier

/-- Evaluation of the try/on-error chain in the script rendered by
`update_task`: if the id lookup fails and then the title lookup fails, the
script returns the literal `"Task not found"`; otherwise it proceeds and
returns the accumulated `updateResult`. -/
def update_task_outcome (idFound titleFound : Bool) (updateResult : String) : String :=
  if idFound then updateResult
  else if titleFound then updateResult
  else "Task not found"

/-- The argument bundle of one tool call.  Each field models one key of the
`arguments` dictionary; `none` is an absent key.  The `list` and `when` keys
are the fields `listArg` and `whenArg`. -/
structure ToolArgs where
  title : Option String := none
  notes : Option String := none
  due_date : Option String := none
  area : Option String := none
  project : Option String := none
  tags : Option (List String) := none
  listArg : Option String := none
  limit : Option Nat := none
  task_id : Option String := none
  query : Option String := none
  status : Option String := none
  whenArg : Option String := none
deriving Repr

/-- `str(KeyError(k))` in Python: the key wrapped in apostrophes. -/
def keyErrorText (k : String) : String := squoteS ++ k ++ squoteS

/-- The double-encoded bullet character used by the dispatcher format
strings (source line 533 and similar). -/
def bulletPoint : String := "â€¢"

/-- The per-task line of the `list_tasks` response formatting
(lines 532-538). -/
def format_task_line (t : TaskOut) : String :=
  bulletPoint ++ " " ++ t.title
    ++ (if pyTruthyOpt t.due_date then " (Due: " ++ t.due_date.getD "" ++ ")" else "")
    ++ (if pyTruthy t.notes then "\n  Notes: " ++ t.notes else "")
    ++ "\n"

/-- The `list_tasks` success formatting (lines 531-538). -/
def format_found_tasks (listArg : String) (tasks : List TaskOut) : String :=
  tasks.foldl (fun acc t => acc ++ format_task_line t)
    ("Found " ++ toString tasks.length ++ " tasks in " ++ listArg ++ ":\n\n")

/-- The `search_tasks` success formatting (lines 555-557). -/
def format_found_search (query : String) (tasks : List SearchOut) : String :=
  tasks.foldl
    (fun acc t => acc ++ bulletPoint ++ " " ++ t.title ++ " (" ++ t.status ++ ")\n")
    ("Found " ++ toString tasks.length ++ " tasks matching " ++ squoteS ++ query ++ squoteS
      ++ ":\n\n")

/-- The `list_projects` success formatting (lines 567-569). -/
def format_found_projects (status : String) (projects : List ProjectOut) : String :=
  projects.foldl
    (fun acc p => acc ++ bulletPoint ++ " " ++ p.title ++ "\n")
    ("Found " ++ toString projects.length ++ " " ++ status ++ " projects:\n\n")

/-- The try block of `handle_call_tool` (lines 510-597): dispatch on the tool
name; a missing required key raises `KeyError`, an unknown name raises
`ValueError("Unknown tool: " ++ name)`, and controller failures propagate
their message.  Each successful branch returns the text contents of the
response. -/
def handle_call_tool_attempt (run : List String → RunOutcome) (name : String)
    (args : ToolArgs) : Except String (List String) :=
  if name = "add_task" then
      match args.title with
      | none => Except.error (keyErrorText "title")
      | some title =>
        match add_task run title (args.notes.getD "") args.due_date args.area args.project
            (args.tags.getD []) with
        | Except.error e => Except.error e
        | Except.ok task_id =>
          Except.ok ["Task " ++ squoteS ++ title ++ squoteS ++
            " added successfully with ID: " ++ task_id]
    else if name = "list_tasks" then
      match list_tasks run (args.listArg.getD "today") (args.limit.getD 20) with
      | Except.error e => Except.error e
      | Except.ok tasks =>
        if tasks.isEmpty then
          Except.ok ["No tasks found in " ++ args.listArg.getD "today" ++ " list"]
        else
          Except.ok [format_found_tasks (args.listArg.getD "today") tasks]
    else if name = "complete_task" then
      match args.task_id with
      | none => Except.error (keyErrorText "task_id")
      | some task_id =>
        match complete_task run task_id with
        | Except.error e => Except.error e
        | Except.ok result => Except.ok [result]
    else if name = "search_tasks" then
      match args.query with
      | none => Except.error (keyErrorText "query")
      | some query =>
        match search_tasks run query (args.limit.getD 10) with
        | Except.error e => Except.error e
        | Except.ok tasks =>
          if tasks.isEmpty then
            Except.ok ["No tasks found matching " ++ squoteS ++ query ++ squoteS]
          else
            Except.ok [format_found_search query tasks]
    else if name = "list_projects" then
      match list_projects run (args.status.getD "open") with
      | Except.error e => Except.error e
      | Except.ok projects =>
        if projects.isEmpty then
          Except.ok ["No " ++ args.status.getD "open" ++ " projects found"]
        else
          Except.ok [format_found_projects (args.status.getD "open") projects]
    else if name = "add_project" then
      match args.title with
      | none => Except.error (keyErrorText "title")
      | some title =>
        match add_project run title (args.notes.getD "") args.area
            (args.whenArg.getD "someday") with
        | Except.error e => Except.error e
        | Except.ok project_id =>
          Except.ok ["Project " ++ squoteS ++ title ++ squoteS ++
            " created successfully with ID: " ++ project_id]
    else if name = "get_daily_overview" then
      match get_daily_overview run with
      | Except.error e => Except.error e
      | Except.ok overview => Except.ok [overview]
    else if name = "update_task" then
      match args.task_id with
      | none => Except.error (keyErrorText "task_id")
      | some task_id =>
        match update_task run task_id args.title args.notes args.due_date args.tags with
        | Except.error e => Except.error e
        | Except.ok result =>
          Except.ok [if pyTruthy result then result else "Task updated successfully"]
    else
      Except.error ("Unknown tool: " ++ name)

/-- `handle_call_tool` (lines 503-600): the try block above wrapped in the
except handler, which renders every raised exception as the single text
`"Error executing {name}: {str(e)}"`. -/
def handle_call_tool (run : List String → RunOutcome) (name : String) (args : ToolArgs) :
    List String :=
  match handle_call_tool_attempt run name args with
  | Except.ok texts => texts
  | Except.error e => ["Error executing " ++ name ++ ": " ++ e]

theorem hasPrefixL_mono (pat xs ys : List Char) (h : hasPrefixL pat xs = true) :
    hasPrefixL pat (xs ++ ys) = true := by
  induction pat generalizing xs with
  | nil => rfl
  | cons p ps ih =>
    cases xs with
    | nil => simp [hasPrefixL] at h
    | cons x xs2 =>
      simp only [hasPrefixL, Bool.and_eq_true] at h ⊢
      exact ⟨h.1, ih xs2 h.2⟩

theorem hasPrefixL_self (xs ys : List Char) : hasPrefixL xs (xs ++ ys) = true := by
  induction xs with
  | nil => rfl
  | cons x xs2 ih => simp [hasPrefixL, ih]

theorem hasPrefixL_exists_rest (xs pat : List Char) (h : hasPrefixL xs pat = true) :
    ∃ rest, pat = xs ++ rest := by
  induction xs generalizing pat with
  | nil => exact ⟨pat, rfl⟩
  | cons x xs2 ih =>
    cases pat with
    | nil => simp [hasPrefixL] at h
    | cons p ps =>
      simp only [hasPrefixL, Bool.and_eq_true, beq_iff_eq] at h
      obtain ⟨rest, hr⟩ := ih ps h.2
      exact ⟨rest, by simp [h.1, hr]⟩

theorem mem_of_hasPrefixL (xs pat : List Char) (h : hasPrefixL xs pat = true) :
    ∀ c ∈ xs, c ∈ pat := by
  obtain ⟨rest, hr⟩ := hasPrefixL_exists_rest xs pat h
  intro c hc
  subst hr
  exact List.mem_append_left rest hc

theorem hasPrefixL_split (pat xs ys : List Char) (h : hasPrefixL pat (xs ++ ys) = true) :
    hasPrefixL pat xs = true ∨ hasPrefixL xs pat = true := by
  induction xs generalizing pat with
  | nil => exact Or.inr rfl
  | cons x xs2 ih =>
    cases pat with
    | nil => exact Or.inl rfl
    | cons p ps =>
      simp only [List.cons_append, hasPrefixL, Bool.and_eq_true, beq_iff_eq] at h
      rcases ih ps h.2 with h2 | h2
      · exact Or.inl (by simp [hasPrefixL, Bool.and_eq_true, beq_iff_eq, h.1, h2])
      · exact Or.inr (by simp [hasPrefixL, Bool.and_eq_true, beq_iff_eq, h.1, h2])

theorem occursL_nil_pat (ys : List Char) : occursL ([] : List Char) ys = true := by
  cases ys <;> rfl

theorem hasPrefixL_nil_iff (pat : List Char) (h : hasPrefixL pat [] = true) : pat = [] := by
  cases pat with
  | nil => rfl
  | cons p ps => simp [hasPrefixL] at h

theorem occursL_mono_right (pat xs ys : List Char) (h : occursL pat ys = true) :
    occursL pat (xs ++ ys) = true := by
  induction xs with
  | nil => exact h
  | cons x xs2 ih => simp [occursL, ih]

theorem occursL_mono_left (pat xs ys : List Char) (h : occursL pat xs = true) :
    occursL pat (xs ++ ys) = true := by
  induction xs with
  | nil =>
    have : pat = [] := hasPrefixL_nil_iff pat h
    subst this
    exact occursL_nil_pat ys
  | cons x xs2 ih =>
    simp only [occursL, Bool.or_eq_true] at h
    rcases h with h | h
    · have := hasPrefixL_mono pat (x :: xs2) ys h
      simp only [List.cons_append] at this
      simp [occursL, this]
    · simp [occursL, ih h]

theorem hasPrefixL_cancel (xs rest ys : List Char)
    (h : hasPrefixL (xs ++ rest) (xs ++ ys) = true) : hasPrefixL rest ys = true := by
  induction xs with
  | nil => exact h
  | cons a as ih =>
    simp only [List.cons_append, hasPrefixL, Bool.and_eq_true] at h
    exact ih h.2

theorem occursL_head_split (pat xs ys2 : List Char) (g : Char) (hg : g ∉ pat)
    (h : occursL pat (xs ++ g :: ys2) = true) :
    occursL pat xs = true ∨ occursL pat (g :: ys2) = true := by
  induction xs with
  | nil => exact Or.inr h
  | cons c xs2 ih =>
    simp only [List.cons_append, occursL, Bool.or_eq_true] at h
    rcases h with h | h
    · have h2 : hasPrefixL pat ((c :: xs2) ++ g :: ys2) = true := by
        simpa using h
      rcases hasPrefixL_split pat (c :: xs2) (g :: ys2) h2 with h3 | h3
      · exact Or.inl (by simp [occursL, h3])
      · obtain ⟨rest, hr⟩ := hasPrefixL_exists_rest (c :: xs2) pat h3
        cases rest with
        | nil =>
          have : hasPrefixL pat (c :: xs2) = true := by
            rw [hr]
            simpa using hasPrefixL_self (c :: xs2) []
          exact Or.inl (by simp [occursL, this])
        | cons r rs =>
          exfalso
          have hcancel : hasPrefixL ((c :: xs2) ++ r :: rs) ((c :: xs2) ++ g :: ys2) = true := by
            rw [← hr]; exact h2
          have hrg : hasPrefixL (r :: rs) (g :: ys2) = true :=
            hasPrefixL_cancel (c :: xs2) (r :: rs) (g :: ys2) hcancel
          have : r = g := by
            simp only [hasPrefixL, Bool.and_eq_true, beq_iff_eq] at hrg
            exact hrg.1
          subst this
          exact hg (hr ▸ List.mem_append_right (c :: xs2) (List.mem_cons_self r rs))
    · rcases ih h with h2 | h2
      · exact Or.inl (by simp [occursL, h2])
      · exact Or.inr h2

theorem occursL_last_split (pat xs2 ys : List Char) (g : Char) (hg : g ∉ pat)
    (h : occursL pat ((xs2 ++ [g]) ++ ys) = true) :
    occursL pat (xs2 ++ [g]) = true ∨ occursL pat ys = true := by
  induction xs2 with
  | nil =>
    simp only [List.nil_append, List.cons_append, occursL, Bool.or_eq_true] at h
    rcases h with h | h
    · cases pat with
      | nil => exact Or.inl (occursL_nil_pat [g])
      | cons p ps =>
        exfalso
        have : p = g := by
          simp only [hasPrefixL, Bool.and_eq_true, beq_iff_eq] at h
          exact h.1
        exact hg (this ▸ List.mem_cons_self p ps)
    · exact Or.inr h
  | cons c xs3 ih =>
    simp only [List.cons_append, occursL, Bool.or_eq_true] at h
    rcases h with h | h
    · have h2 : hasPrefixL pat ((c :: (xs3 ++ [g])) ++ ys) = true := by
        simpa using h
      rcases hasPrefixL_split pat (c :: (xs3 ++ [g])) ys h2 with h3 | h3
      · exact Or.inl (by simp [occursL, List.cons_append, h3])
      · exfalso
        have hmem : g ∈ c :: (xs3 ++ [g]) :=
          List.mem_cons_of_mem c (List.mem_append_right xs3 (List.mem_cons_self g []))
        exact hg (mem_of_hasPrefixL _ _ h3 g hmem)
    · rcases ih h with h2 | h2
      · exact Or.inl (by simp [occursL, List.cons_append, h2])
      · exact Or.inr h2

theorem occursL_append_false_cons (pat a b2 : List Char) (g : Char) (hg : g ∉ pat)
    (h1 : occursL pat a = false) (h2 : occursL pat (g :: b2) = false) :
    occursL pat (a ++ g :: b2) = false := by
  cases hO : occursL pat (a ++ g :: b2) with
  | false => rfl
  | true =>
    exfalso
    rcases occursL_head_split pat a b2 g hg hO with hx | hx
    · simp [h1] at hx
    · simp [h2] at hx

theorem occursL_append_false_snoc (pat a2 b : List Char) (g : Char) (hg : g ∉ pat)
    (h1 : occursL pat (a2 ++ [g]) = false) (h2 : occursL pat b = false) :
    occursL pat ((a2 ++ [g]) ++ b) = false := by
  cases hO : occursL pat ((a2 ++ [g]) ++ b) with
  | false => rfl
  | true =>
    exfalso
    rcases occursL_last_split pat a2 b g hg hO with hx | hx
    · simp [h1] at hx
    · simp [h2] at hx

/-- A safe tail for the right-to-left assembly of a rendered script: the
keyword does not occur in it, and its first character is one the keyword
cannot contain, so no occurrence can straddle into it. -/
def tailSafe (pat rest : List Char) : Prop :=
  occursL pat rest = false ∧ ∃ g r2, rest = g :: r2 ∧ g ∉ pat

theorem tailSafe_append (pat a rest : List Char) (hts : tailSafe pat rest)
    (h1 : occursL pat a = false) : occursL pat (a ++ rest) = false := by
  obtain ⟨hocc, g, r2, hr, hg⟩ := hts
  subst hr
  exact occursL_append_false_cons pat a r2 g hg h1 hocc

theorem tailSafe_prepend (pat : List Char) (s : String) (rest : List Char) (g : Char)
    (hts : tailSafe pat rest) (hs : occursL pat s.data = false)
    (hhead : s.data.head? = some g) (hg : g ∉ pat) :
    tailSafe pat (s.data ++ rest) := by
  have hocc := tailSafe_append pat s.data rest hts hs
  cases hsd : s.data with
  | nil => rw [hsd] at hhead; exact absurd hhead (by simp)
  | cons c cs =>
    rw [hsd] at hhead hocc
    simp only [List.head?_cons, Option.some.injEq] at hhead
    subst hhead
    exact ⟨hocc, c, cs ++ rest, rfl, hg⟩

/-- Prepending one optional property clause `mid ++ value ++ q` (or nothing,
when the field is absent) onto a safe tail keeps the tail safe: `mid` ends
with the opening quote of the value, `q` begins with its closing quote, and
`mid` begins with a comma, none of which the keyword contains. -/
theorem tailSafe_prepend_clause (pat : List Char) (cond : Bool) (mid v q : String)
    (rest : List Char) (hts : tailSafe pat rest) (hquote : '"' ∉ pat)
    (hmid : cond = true → occursL pat mid.data = false)
    (hv : cond = true → occursL pat v.data = false)
    (hq : cond = true → occursL pat q.data = false)
    (hmidhead : cond = true → ∃ gm m2, mid.data = gm :: m2 ∧ gm ∉ pat)
    (hmidend : cond = true → ∃ m2, mid.data = m2 ++ ['"'])
    (hqhead : cond = true → ∃ q2, q.data = '"' :: q2) :
    tailSafe pat ((if cond then mid ++ v ++ q else "").data ++ rest) := by
  cases cond with
  | false => exact hts
  | true =>
    obtain ⟨gm, m2, hm, hgm⟩ := hmidhead rfl
    obtain ⟨m3, hm3⟩ := hmidend rfl
    obtain ⟨q2, hq2⟩ := hqhead rfl
    have s1 : occursL pat (q.data ++ rest) = false :=
      tailSafe_append pat q.data rest hts (hq rfl)
    have e2 : q.data ++ rest = '"' :: (q2 ++ rest) := by rw [hq2]; rfl
    have s2 : occursL pat (v.data ++ (q.data ++ rest)) = false := by
      rw [e2]
      exact occursL_append_false_cons pat v.data (q2 ++ rest) '"' hquote (hv rfl) (e2 ▸ s1)
    have s3 : occursL pat (mid.data ++ (v.data ++ (q.data ++ rest))) = false := by
      rw [hm3]
      exact occursL_append_false_snoc pat m3 (v.data ++ (q.data ++ rest)) '"' hquote
        (hm3 ▸ hmid rfl) s2
    refine ⟨?_, gm, m2 ++ (v.data ++ (q.data ++ rest)), ?_, hgm⟩
    · have e : ((if (true : Bool) then mid ++ v ++ q else "").data ++ rest) =
          mid.data ++ (v.data ++ (q.data ++ rest)) := by
        simp [String.data_append, List.append_assoc]
      rw [e]
      exact s3
    · simp [String.data_append, List.append_assoc, hm]

/-- The joined tag list prepended onto a safe tail does not contain the
keyword: each tag value is flanked by the quoted separators, whose boundary
quotes block straddling occurrences. -/
theorem occursL_tagjoin_false (pat : List Char) (hquote : '"' ∉ pat)
    (hsep : occursL pat ("\", \"" : String).data = false) :
    ∀ (tags : List String) (rest : List Char), tailSafe pat rest →
      (∀ t ∈ tags, occursL pat t.data = false) →
      occursL pat ((joinWith "\", \"" tags).data ++ rest) = false := by
  intro tags
  induction tags with
  | nil =>
    intro rest hts _
    exact hts.1
  | cons t ts ih =>
    intro rest hts hvals
    cases ts with
    | nil =>
      exact tailSafe_append pat t.data rest hts (hvals t (List.mem_cons_self t []))
    | cons t2 ts2 =>
      have hrest2 : occursL pat ((joinWith "\", \"" (t2 :: ts2)).data ++ rest) = false :=
        ih rest hts (fun x hx => hvals x (List.mem_cons_of_mem t hx))
      have esep : ("\", \"" : String).data = ['"', ',', ' '] ++ ['"'] := rfl
      have hsep2 : occursL pat (("\", \"" : String).data ++
          ((joinWith "\", \"" (t2 :: ts2)).data ++ rest)) = false := by
        rw [esep]
        exact occursL_append_false_snoc pat ['"', ',', ' '] _ '"' hquote (esep ▸ hsep) hrest2
      have hfin : occursL pat (t.data ++ (("\", \"" : String).data ++
          ((joinWith "\", \"" (t2 :: ts2)).data ++ rest))) = false :=
        occursL_append_false_cons pat t.data
          ([',', ' ', '"'] ++ ((joinWith "\", \"" (t2 :: ts2)).data ++ rest)) '"' hquote
          (hvals t (List.mem_cons_self t (t2 :: ts2))) hsep2
      have easm : ((t ++ "\", \"" ++ joinWith "\", \"" (t2 :: ts2)) : String).data ++ rest =
          t.data ++ (("\", \"" : String).data ++ ((joinWith "\", \"" (t2 :: ts2)).data ++ rest)) := by
        simp [String.data_append, List.append_assoc]
      have ejoin : joinWith "\", \"" (t :: t2 :: ts2) =
          t ++ "\", \"" ++ joinWith "\", \"" (t2 :: ts2) := rfl
      rw [ejoin, easm]
      exact hfin

/-- The whole optional tag block of `add_task` (or nothing, when `tags` is
empty) prepended onto a safe tail keeps the tail safe. -/
theorem tailSafe_prepend_tagblock (pat : List Char) (tags : List String) (rest : List Char)
    (hts : tailSafe pat rest) (hquote : '"' ∉ pat) (hnl : '\n' ∉ pat)
    (hopen : tags.isEmpty = false →
      occursL pat ("\n    repeat with tagName in \x7b\"" : String).data = false)
    (hsep : tags.isEmpty = false → occursL pat ("\", \"" : String).data = false)
    (hcloser : tags.isEmpty = false →
      occursL pat
        ("\"\x7d\n        set tag of newToDo to tagName\n    end repeat" : String).data = false)
    (hvals : ∀ t ∈ tags, occursL pat t.data = false) :
    tailSafe pat
      ((if tags.isEmpty then ""
        else
          "\n    repeat with tagName in \x7b\"" ++ joinWith "\", \"" tags ++
            "\"\x7d\n        set tag of newToDo to tagName\n    end repeat").data ++ rest) := by
  cases htag : tags.isEmpty with
  | true => exact hts
  | false =>
    have tcl : tailSafe pat
        (("\"\x7d\n        set tag of newToDo to tagName\n    end repeat" : String).data ++ rest) :=
      tailSafe_prepend pat "\"\x7d\n        set tag of newToDo to tagName\n    end repeat" rest '"'
        hts (hcloser htag) rfl hquote
    have tjoin : occursL pat ((joinWith "\", \"" tags).data ++
        ((("\"\x7d\n        set tag of newToDo to tagName\n    end repeat" : String).data) ++
          rest)) = false :=
      occursL_tagjoin_false pat hquote (hsep htag) tags _ tcl hvals
    have eopen : ("\n    repeat with tagName in \x7b\"" : String).data =
        ("\n    repeat with tagName in \x7b" : String).data ++ ['"'] := rfl
    have topen : occursL pat (("\n    repeat with tagName in \x7b\"" : String).data ++
        ((joinWith "\", \"" tags).data ++
          ((("\"\x7d\n        set tag of newToDo to tagName\n    end repeat" : String).data) ++
            rest))) = false := by
      rw [eopen]
      exact occursL_append_false_snoc pat ("\n    repeat with tagName in \x7b" : String).data _
        '"' hquote (eopen ▸ hopen htag) tjoin
    show tailSafe pat
      ((("\n    repeat with tagName in \x7b\"" ++ joinWith "\", \"" tags ++
        "\"\x7d\n        set tag of newToDo to tagName\n    end repeat" : String)).data ++ rest)
    have easm : (("\n    repeat with tagName in \x7b\"" ++ joinWith "\", \"" tags ++
          "\"\x7d\n        set tag of newToDo to tagName\n    end repeat" : String)).data ++ rest =
        ("\n    repeat with tagName in \x7b\"" : String).data ++
          ((joinWith "\", \"" tags).data ++
            ((("\"\x7d\n        set tag of newToDo to tagName\n    end repeat" : String).data) ++
              rest)) := by
      simp [String.data_append, List.append_assoc]
    rw [easm]
    refine ⟨topen, '\n', ("    repeat with tagName in \x7b\"" : String).data ++
      ((joinWith "\", \"" tags).data ++
        ((("\"\x7d\n        set tag of newToDo to tagName\n    end repeat" : String).data) ++
          rest)), rfl, hnl⟩

set_option maxHeartbeats 2000000 in
/-- The script rendered by `add_task`, for an arbitrary argument bundle,
decomposed into the fixed header, the spliced title, and one clause per
present optional field in the order the builder emits them. -/
theorem add_task_script_decomp (title notes : String) (due_date area project : Option String)
    (tags : List String) :
    add_task_script title notes due_date area project tags =
      "tell application \"Things3\"\n    set newToDo to make new to do with properties \x7bname:\"" ++
        (title ++ ("\"" ++
          ((if pyTruthy notes then ", notes:\"" ++ notes ++ "\"" else "") ++
            ((if pyTruthyOpt due_date then ", due date:date(\"" ++ due_date.getD "" ++ "\")"
              else "") ++
              ((if pyTruthyOpt area then ", area:\"" ++ area.getD "" ++ "\"" else "") ++
                ((if pyTruthyOpt project then ", project:\"" ++ project.getD "" ++ "\"" else "") ++
                  ("\x7d" ++
                    ((if tags.isEmpty then ""
                      else
                        "\n    repeat with tagName in \x7b\"" ++ joinWith "\", \"" tags ++
                          "\"\x7d\n        set tag of newToDo to tagName\n    end repeat") ++
                      "\n    return id of newToDo\nend tell")))))))) := by
  cases hN : pyTruthy notes <;> cases hD : pyTruthyOpt due_date <;>
    cases hA2 : pyTruthyOpt area <;> cases hP : pyTruthyOpt project <;>
    cases hT : tags.isEmpty <;>
    (apply String.ext;
     simp [add_task_script, joinLines, joinWith, hN, hD, hA2, hP, hT, String.data_append,
       List.append_assoc])

set_option maxHeartbeats 2000000 in
/-- The script rendered by `add_project`, for an arbitrary argument bundle,
decomposed the same way. -/
theorem add_project_script_decomp (title notes : String) (area : Option String)
    (whenArg : String) :
    add_project_script title notes area whenArg =
      "tell application \"Things3\"\n    set newProject to make new project with properties \x7bname:\"" ++
        (title ++ ("\"" ++
          ((if pyTruthy notes then ", notes:\"" ++ notes ++ "\"" else "") ++
            ((if pyTruthyOpt area then ", area:\"" ++ area.getD "" ++ "\"" else "") ++
              ("\x7d" ++
                ((if whenArg = "today" then "\n    set start date of newProject to current date"
                  else "") ++
                  "\n    return id of newProject\nend tell")))))) := by
  by_cases hW : whenArg = "today" <;> cases hN : pyTruthy notes <;>
    cases hA2 : pyTruthyOpt area <;>
    (apply String.ext;
     simp [add_project_script, joinLines, joinWith, hW, hN, hA2, String.data_append,
       List.append_assoc])

/-- A keyword that contains none of the structural guard characters, none of
the fixed fragments the builder emits for this bundle, and none of the
supplied values, does not occur in the script rendered by `add_task` —
for an arbitrary argument bundle. -/
theorem add_task_script_keyword_free (pat : List Char) (title notes : String)
    (due_date area project : Option String) (tags : List String)
    (hquote : '"' ∉ pat) (hcomma : ',' ∉ pat) (hnl : '\n' ∉ pat) (hbrace : '\x7d' ∉ pat)
    (hA : occursL pat
      ("tell application \"Things3\"\n    set newToDo to make new to do with properties \x7bname:\"" : String).data = false)
    (hq1 : occursL pat ("\"" : String).data = false)
    (hclose : occursL pat ("\x7d" : String).data = false)
    (htail : occursL pat ("\n    return id of newToDo\nend tell" : String).data = false)
    (hmidN : pyTruthy notes = true → occursL pat (", notes:\"" : String).data = false)
    (hmidD : pyTruthyOpt due_date = true →
      occursL pat (", due date:date(\"" : String).data = false)
    (hqD : pyTruthyOpt due_date = true → occursL pat ("\")" : String).data = false)
    (hmidA : pyTruthyOpt area = true → occursL pat (", area:\"" : String).data = false)
    (hmidP : pyTruthyOpt project = true → occursL pat (", project:\"" : String).data = false)
    (hopen : tags.isEmpty = false →
      occursL pat ("\n    repeat with tagName in \x7b\"" : String).data = false)
    (hsep : tags.isEmpty = false → occursL pat ("\", \"" : String).data = false)
    (hcloser : tags.isEmpty = false →
      occursL pat
        ("\"\x7d\n        set tag of newToDo to tagName\n    end repeat" : String).data = false)
    (hvT : occursL pat title.data = false)
    (hvN : pyTruthy notes = true → occursL pat notes.data = false)
    (hvD : pyTruthyOpt due_date = true → occursL pat (due_date.getD "").data = false)
    (hvA : pyTruthyOpt area = true → occursL pat (area.getD "").data = false)
    (hvP : pyTruthyOpt project = true → occursL pat (project.getD "").data = false)
    (hvTags : ∀ t ∈ tags, occursL pat t.data = false) :
    occursL pat (add_task_script title notes due_date area project tags).data = false := by
  rw [add_task_script_decomp]
  simp only [String.data_append]
  have t0 : tailSafe pat ("\n    return id of newToDo\nend tell" : String).data :=
    ⟨htail, '\n', ("    return id of newToDo\nend tell" : String).data, rfl, hnl⟩
  have t1 := tailSafe_prepend_tagblock pat tags
    ("\n    return id of newToDo\nend tell" : String).data t0 hquote hnl hopen hsep hcloser hvTags
  have t2 := tailSafe_prepend pat "\x7d" _ '\x7d' t1 hclose rfl hbrace
  have t3 := tailSafe_prepend_clause pat (pyTruthyOpt project) ", project:\"" (project.getD "")
    "\"" _ t2 hquote hmidP hvP (fun _ => hq1)
    (fun _ => ⟨',', (" project:\"" : String).data, rfl, hcomma⟩)
    (fun _ => ⟨(", project:" : String).data, rfl⟩)
    (fun _ => ⟨[], rfl⟩)
  have t4 := tailSafe_prepend_clause pat (pyTruthyOpt area) ", area:\"" (area.getD "") "\"" _ t3
    hquote hmidA hvA (fun _ => hq1)
    (fun _ => ⟨',', (" area:\"" : String).data, rfl, hcomma⟩)
    (fun _ => ⟨(", area:" : String).data, rfl⟩)
    (fun _ => ⟨[], rfl⟩)
  have t5 := tailSafe_prepend_clause pat (pyTruthyOpt due_date) ", due date:date(\""
    (due_date.getD "") "\")" _ t4 hquote hmidD hvD hqD
    (fun _ => ⟨',', (" due date:date(\"" : String).data, rfl, hcomma⟩)
    (fun _ => ⟨(", due date:date(" : String).data, rfl⟩)
    (fun _ => ⟨[')'], rfl⟩)
  have t6 := tailSafe_prepend_clause pat (pyTruthy notes) ", notes:\"" notes "\"" _ t5 hquote
    hmidN hvN (fun _ => hq1)
    (fun _ => ⟨',', (" notes:\"" : String).data, rfl, hcomma⟩)
    (fun _ => ⟨(", notes:" : String).data, rfl⟩)
    (fun _ => ⟨[], rfl⟩)
  have t7 := tailSafe_prepend pat "\"" _ '"' t6 hq1 rfl hquote
  have o8 := tailSafe_append pat title.data _ t7 hvT
  have eA : ("tell application \"Things3\"\n    set newToDo to make new to do with properties \x7bname:\"" : String).data =
      ("tell application \"Things3\"\n    set newToDo to make new to do with properties \x7bname:" : String).data ++ ['"'] := rfl
  exact occursL_append_false_snoc pat
    ("tell application \"Things3\"\n    set newToDo to make new to do with properties \x7bname:" : String).data
    _ '"' hquote (eA ▸ hA) o8

/-- A keyword that contains none of the structural guard characters, none of
the fixed fragments the builder emits for this bundle, and none of the
supplied values, does not occur in the script rendered by `add_project`. -/
theorem add_project_script_keyword_free (pat : List Char) (title notes : String)
    (area : Option String) (whenArg : String)
    (hquote : '"' ∉ pat) (hcomma : ',' ∉ pat) (hnl : '\n' ∉ pat) (hbrace : '\x7d' ∉ pat)
    (hA : occursL pat
      ("tell application \"Things3\"\n    set newProject to make new project with properties \x7bname:\"" : String).data = false)
    (hq1 : occursL pat ("\"" : String).data = false)
    (hclose : occursL pat ("\x7d" : String).data = false)
    (htail : occursL pat ("\n    return id of newProject\nend tell" : String).data = false)
    (hmidN : pyTruthy notes = true → occursL pat (", notes:\"" : String).data = false)
    (hmidA : pyTruthyOpt area = true → occursL pat (", area:\"" : String).data = false)
    (hW : whenArg = "today" →
      occursL pat ("\n    set start date of newProject to current date" : String).data = false)
    (hvT : occursL pat title.data = false)
    (hvN : pyTruthy notes = true → occursL pat notes.data = false)
    (hvA : pyTruthyOpt area = true → occursL pat (area.getD "").data = false) :
    occursL pat (add_project_script title notes area whenArg).data = false := by
  rw [add_project_script_decomp]
  simp only [String.data_append]
  have t0 : tailSafe pat ("\n    return id of newProject\nend tell" : String).data :=
    ⟨htail, '\n', ("    return id of newProject\nend tell" : String).data, rfl, hnl⟩
  have t1 : tailSafe pat
      (((if whenArg = "today" then ("\n    set start date of newProject to current date" : String)
        else "")).data ++ ("\n    return id of newProject\nend tell" : String).data) := by
    by_cases hw : whenArg = "today"
    · rw [if_pos hw]
      exact tailSafe_prepend pat "\n    set start date of newProject to current date" _ '\n' t0
        (hW hw) rfl hnl
    · rw [if_neg hw]
      exact t0
  have t2 := tailSafe_prepend pat "\x7d" _ '\x7d' t1 hclose rfl hbrace
  have t3 := tailSafe_prepend_clause pat (pyTruthyOpt area) ", area:\"" (area.getD "") "\"" _ t2
    hquote hmidA hvA (fun _ => hq1)
    (fun _ => ⟨',', (" area:\"" : String).data, rfl, hcomma⟩)
    (fun _ => ⟨(", area:" : String).data, rfl⟩)
    (fun _ => ⟨[], rfl⟩)
  have t4 := tailSafe_prepend_clause pat (pyTruthy notes) ", notes:\"" notes "\"" _ t3 hquote
    hmidN hvN (fun _ => hq1)
    (fun _ => ⟨',', (" notes:\"" : String).data, rfl, hcomma⟩)
    (fun _ => ⟨(", notes:" : String).data, rfl⟩)
    (fun _ => ⟨[], rfl⟩)
  have t5 := tailSafe_prepend pat "\"" _ '"' t4 hq1 rfl hquote
  have o6 := tailSafe_append pat title.data _ t5 hvT
  have eA : ("tell application \"Things3\"\n    set newProject to make new project with properties \x7bname:\"" : String).data =
      ("tell application \"Things3\"\n    set newProject to make new project with properties \x7bname:" : String).data ++ ['"'] := rfl
  exact occursL_append_false_snoc pat
    ("tell application \"Things3\"\n    set newProject to make new project with properties \x7bname:" : String).data
    _ '"' hquote (eA ▸ hA) o6

/-- The clause keyword `kw` occurs in none of the values an `add_task` bundle
splices into the script. -/
abbrev splice_values_free (title notes : String) (due_date area project : Option String)
    (tags : List String) (kw : String) : Prop :=
  containsStr title kw = false ∧ containsStr notes kw = false ∧
  containsStr (due_date.getD "") kw = false ∧ containsStr (area.getD "") kw = false ∧
  containsStr (project.getD "") kw = false ∧ ∀ t ∈ tags, containsStr t kw = false

/-- The clause keyword `kw` occurs in none of the values an `add_project`
bundle splices into the script. -/
abbrev project_values_free (title notes : String) (area : Option String) (kw : String) : Prop :=
  containsStr title kw = false ∧ containsStr notes kw = false ∧
  containsStr (area.getD "") kw = false

/-- Counterexample to claim C2 as stated: the builders splice user values
into the command verbatim, so a clause keyword spelled inside a supplied
value reaches the rendered text even though its field is absent.  With the
area field absent, notes of `see area: home` put `area:` into the command;
with notes absent, a title of `xnotes: y` puts `notes:` into it. -/
theorem C2_keyword_in_value_counterexample :
    containsStr (add_task_script "Buy milk" "see area: home" none none none []) "area:" = true ∧
    containsStr (add_task_script "xnotes: y" "" none none none []) "notes:" = true := by
  decide

/-- Claim C2 as amended: for every argument bundle in which an optional field
(notes, due date, area, project, tags) is absent or empty, the command
rendered by `add_task` and `add_project` contains no clause for that field —
the builder emits a clause keyword only as part of an emitted clause, so the
keyword of the absent field occurs in the rendered command only if one of the
user-supplied values itself spells it.  Each conjunct fixes one field absent,
leaves every other field arbitrary, and assumes only that the supplied values
do not spell the absent field's clause keyword. -/
theorem C2_absent_fields_amended (title notes : String)
    (due_date area project : Option String) (tags : List String) (whenArg : String) :
    (pyTruthy notes = false →
      splice_values_free title notes due_date area project tags "notes:" →
      containsStr (add_task_script title notes due_date area project tags) "notes:" = false) ∧
    (pyTruthyOpt due_date = false →
      splice_values_free title notes due_date area project tags "due date:" →
      containsStr (add_task_script title notes due_date area project tags) "due date:" = false) ∧
    (pyTruthyOpt area = false →
      splice_values_free title notes due_date area project tags "area:" →
      containsStr (add_task_script title notes due_date area project tags) "area:" = false) ∧
    (pyTruthyOpt project = false →
      splice_values_free title notes due_date area project tags "project:" →
      containsStr (add_task_script title notes due_date area project tags) "project:" = false) ∧
    (tags = [] →
      splice_values_free title notes due_date area project tags "repeat with tagName" →
      containsStr (add_task_script title notes due_date area project tags)
        "repeat with tagName" = false) ∧
    (pyTruthy notes = false → project_values_free title notes area "notes:" →
      containsStr (add_project_script title notes area whenArg) "notes:" = false) ∧
    (pyTruthyOpt area = false → project_values_free title notes area "area:" →
      containsStr (add_project_script title notes area whenArg) "area:" = false) ∧
    (whenArg ≠ "today" → project_values_free title notes area "start date" →
      containsStr (add_project_script title notes area whenArg) "start date" = false) := by
  refine ⟨?_, ?_, ?_, ?_, ?_, ?_, ?_, ?_⟩
  · intro habs hfree
    obtain ⟨f1, f2, f3, f4, f5, f6⟩ := hfree
    exact add_task_script_keyword_free "notes:".data title notes due_date area project tags
      (by decide) (by decide) (by decide) (by decide)
      (by decide) (by decide) (by decide) (by decide)
      (fun h => absurd (habs.symm.trans h) (by decide))
      (fun _ => by decide) (fun _ => by decide) (fun _ => by decide) (fun _ => by decide)
      (fun _ => by decide) (fun _ => by decide) (fun _ => by decide)
      f1 (fun _ => f2) (fun _ => f3) (fun _ => f4) (fun _ => f5) f6
  · intro habs hfree
    obtain ⟨f1, f2, f3, f4, f5, f6⟩ := hfree
    exact add_task_script_keyword_free "due date:".data title notes due_date area project tags
      (by decide) (by decide) (by decide) (by decide)
      (by decide) (by decide) (by decide) (by decide)
      (fun _ => by decide)
      (fun h => absurd (habs.symm.trans h) (by decide)) (fun _ => by decide)
      (fun _ => by decide) (fun _ => by decide)
      (fun _ => by decide) (fun _ => by decide) (fun _ => by decide)
      f1 (fun _ => f2) (fun _ => f3) (fun _ => f4) (fun _ => f5) f6
  · intro habs hfree
    obtain ⟨f1, f2, f3, f4, f5, f6⟩ := hfree
    exact add_task_script_keyword_free "area:".data title notes due_date area project tags
      (by decide) (by decide) (by decide) (by decide)
      (by decide) (by decide) (by decide) (by decide)
      (fun _ => by decide) (fun _ => by decide) (fun _ => by decide)
      (fun h => absurd (habs.symm.trans h) (by decide)) (fun _ => by decide)
      (fun _ => by decide) (fun _ => by decide) (fun _ => by decide)
      f1 (fun _ => f2) (fun _ => f3) (fun _ => f4) (fun _ => f5) f6
  · intro habs hfree
    obtain ⟨f1, f2, f3, f4, f5, f6⟩ := hfree
    exact add_task_script_keyword_free "project:".data title notes due_date area project tags
      (by decide) (by decide) (by decide) (by decide)
      (by decide) (by decide) (by decide) (by decide)
      (fun _ => by decide) (fun _ => by decide) (fun _ => by decide)
      (fun _ => by decide) (fun h => absurd (habs.symm.trans h) (by decide))
      (fun _ => by decide) (fun _ => by decide) (fun _ => by decide)
      f1 (fun _ => f2) (fun _ => f3) (fun _ => f4) (fun _ => f5) f6
  · intro htags hfree
    obtain ⟨f1, f2, f3, f4, f5, f6⟩ := hfree
    exact add_task_script_keyword_free "repeat with tagName".data title notes due_date area
      project tags
      (by decide) (by decide) (by decide) (by decide)
      (by decide) (by decide) (by decide) (by decide)
      (fun _ => by decide) (fun _ => by decide) (fun _ => by decide)
      (fun _ => by decide) (fun _ => by decide)
      (fun h => absurd h (by rw [htags]; decide))
      (fun h => absurd h (by rw [htags]; decide))
      (fun h => absurd h (by rw [htags]; decide))
      f1 (fun _ => f2) (fun _ => f3) (fun _ => f4) (fun _ => f5) f6
  · intro habs hfree
    obtain ⟨f1, f2, f3⟩ := hfree
    exact add_project_script_keyword_free "notes:".data title notes area whenArg
      (by decide) (by decide) (by decide) (by decide)
      (by decide) (by decide) (by decide) (by decide)
      (fun h => absurd (habs.symm.trans h) (by decide)) (fun _ => by decide)
      (fun _ => by decide)
      f1 (fun _ => f2) (fun _ => f3)
  · intro habs hfree
    obtain ⟨f1, f2, f3⟩ := hfree
    exact add_project_script_keyword_free "area:".data title notes area whenArg
      (by decide) (by decide) (by decide) (by decide)
      (by decide) (by decide) (by decide) (by decide)
      (fun _ => by decide) (fun h => absurd (habs.symm.trans h) (by decide))
      (fun _ => by decide)
      f1 (fun _ => f2) (fun _ => f3)
  · intro hno hfree
    obtain ⟨f1, f2, f3⟩ := hfree
    exact add_project_script_keyword_free "start date".data title notes area whenArg
      (by decide) (by decide) (by decide) (by decide)
      (by decide) (by decide) (by decide) (by decide)
      (fun _ => by decide) (fun _ => by decide)
      (fun h => absurd h hno)
      f1 (fun _ => f2) (fun _ => f3)

/-- Witness for the amended C2 at a mixed bundle: notes, due date, project
and two tags present, area absent — the rendered command has no area
clause keyword. -/
theorem C2_absent_fields_amended_witness :
    containsStr
      (add_task_script "Buy milk" "from the store" (some "2025-01-01") none (some "Errands")
        ["home", "shopping"]) "area:" = false :=
  (C2_absent_fields_amended "Buy milk" "from the store" (some "2025-01-01") none (some "Errands")
      ["home", "shopping"] "someday").2.2.1 (by decide) (by decide)

/-- Claim C5: the scripts built by `complete_task` and `update_task` attempt
lookup by identifier first, fall back to lookup by title, and when both fail
yield a distinguishable not-found message rather than letting the lookup
failure propagate.  The first two conjuncts exhibit the rendered scripts
(identifier lookup in the outer try, title lookup in the nested try, the
not-found return in the innermost on-error); the remaining conjuncts settle
the outcome of the chain for every combination of lookup results. -/
theorem C5_lookup_fallback :
    (complete_task_script "T1" =
      "\n        tell application \"Things3\"\n            try\n                set completedToDo to to do id \"T1\"\n                set status of completedToDo to completed\n                return \"Task completed successfully (found by ID)\"\n            on error\n                try\n                    set completedToDo to to do \"T1\"\n                    set status of completedToDo to completed\n                    return \"Task completed successfully (found by title)\"\n                on error\n                    return \"Task not found: T1\"\n                end try\n            end try\n        end tell\n        ") ∧
    (update_task_script "T1" none none none =
      "tell application \"Things3\"\n    try\n        set targetToDo to to do id \"T1\"\n    on error\n        try\n            set targetToDo to to do \"T1\"\n        on error\n            return \"Task not found\"\n        end try\n    end try\n    \n    set updateResult to \"\"\n    return updateResult\nend tell") ∧
    (∀ (b : Bool) (task_identifier : String),
      complete_task_outcome true b task_identifier =
        "Task completed successfully (found by ID)") ∧
    (∀ task_identifier : String,
      complete_task_outcome false true task_identifier =
        "Task completed successfully (found by title)") ∧
    (∀ task_identifier : String,
      complete_task_outcome false false task_identifier =
        "Task not found: " ++ task_identifier) ∧
    (∀ updateResult : String, update_task_outcome false false updateResult = "Task not found") ∧
    (∀ task_identifier : String,
      complete_task_outcome false false task_identifier ≠
        "Task completed successfully (found by ID)" ∧
      complete_task_outcome false false task_identifier ≠
        "Task completed successfully (found by title)") := by
  refine ⟨by decide, by decide, fun b i => rfl, fun i => rfl, fun i => rfl, fun u => rfl, ?_⟩
  intro task_identifier
  constructor
  · intro h
    simp only [complete_task_outcome, Bool.false_eq_true, if_false] at h
    have hL : hasPrefixL "Task not found".data
        ("Task not found: " ++ task_identifier).data = true := by
      rw [String.data_append]
      exact hasPrefixL_mono _ _ _ (by decide)
    rw [h] at hL
    exact absurd hL (by decide)
  · intro h
    simp only [complete_task_outcome, Bool.false_eq_true, if_false] at h
    have hL : hasPrefixL "Task not found".data
        ("Task not found: " ++ task_identifier).data = true := by
      rw [String.data_append]
      exact hasPrefixL_mono _ _ _ (by decide)
    rw [h] at hL
    exact absurd hL (by decide)

/-- Claim C6: the process invoker fails with the execution-error message
carrying the captured standard error on a non-zero exit code, fails with the
distinct timeout message on a timeout, returns the trimmed standard output on
exit code zero, and the configured timeout is the fixed 10. -/
theorem C6_invoker_error_mapping (script stdout stderr : String) (code : Int)
    (h : code ≠ 0) :
    execute_applescript (fun _ => RunOutcome.timeout) script =
      Except.error "AppleScript execution timed out" ∧
    execute_applescript (fun _ => RunOutcome.finished code stdout stderr) script =
      Except.error ("Failed to execute AppleScript: AppleScript error: " ++ stderr) ∧
    execute_applescript (fun _ => RunOutcome.finished 0 stdout stderr) script =
      Except.ok (pyStrip stdout) ∧
    "AppleScript execution timed out" ≠
      "Failed to execute AppleScript: AppleScript error: " ++ stderr ∧
    osascript_timeout = 10 := by
  refine ⟨rfl, ?_, rfl, ?_, rfl⟩
  · simp only [execute_applescript]
    rw [if_pos h]
  · intro heq
    have hL : hasPrefixL "Failed to execute AppleScript".data
        ("Failed to execute AppleScript: AppleScript error: " ++ stderr).data = true := by
      rw [String.data_append]
      exact hasPrefixL_mono _ _ _ (by decide)
    rw [← heq] at hL
    exact absurd hL (by decide)

/-- Witness for C6 at a concrete failing exit code. -/
theorem C6_invoker_error_mapping_witness :
    execute_applescript (fun _ => RunOutcome.finished 1 "out" "err") "s" =
      Except.error ("Failed to execute AppleScript: AppleScript error: " ++ "err") :=
  (C6_invoker_error_mapping "s" "out" "err" 1 (by decide)).2.1

/-- Claim C9 (implicit): `execute_applescript` passes the script to the
external process verbatim — the executed argument vector is exactly
`osascript -e <script>` — and the quote-escaped variant it computes is
discarded: the result depends on the runner only at the verbatim vector, and
on a script containing an apostrophe the escaped variant differs from the
script while the invoked vector still carries the script unchanged. -/
theorem C9_script_passed_verbatim :
    (∀ script : String, invoked_command script = ["osascript", "-e", script]) ∧
    (∀ (script : String) (run run2 : List String → RunOutcome),
      run (invoked_command script) = run2 (invoked_command script) →
      execute_applescript run script = execute_applescript run2 script) ∧
    (escaped_script (String.mk ['a', squote, 'b']) =
      String.mk (['a'] ++ shellQuoteRep.data ++ ['b']) ∧
     escaped_script (String.mk ['a', squote, 'b']) ≠ String.mk ['a', squote, 'b'] ∧
     invoked_command (String.mk ['a', squote, 'b']) =
       ["osascript", "-e", String.mk ['a', squote, 'b']]) := by
  refine ⟨fun script => rfl, ?_, by decide⟩
  intro script run run2 h
  simp only [execute_applescript]
  rw [h]

/-- Witness for C9: two runners that agree on the verbatim vector (one of
them times out everywhere else) produce the same invoker result. -/
theorem C9_script_passed_verbatim_witness :
    execute_applescript (fun _ => RunOutcome.finished 0 "ok" "") "x" =
      execute_applescript
        (fun argv =>
          if argv = invoked_command "x" then RunOutcome.finished 0 "ok" ""
          else RunOutcome.timeout)
        "x" :=
  C9_script_passed_verbatim.2.1 "x" _ _ (by simp)

/-- Claim C10 (implicit): the `list_tasks` list-name matching is
case-insensitive (names equal after lowering are dispatched identically, and
the six recognized names map to their lists under arbitrary casing), and any
unrecognized name silently falls back to the `Today` list. -/
theorem C10_list_name_matching :
    (∀ s t : String, pyLower s = pyLower t →
      things_list_specifier s = things_list_specifier t) ∧
    (things_list_specifier "TODAY" = "list \"Today\"" ∧
     things_list_specifier "Upcoming" = "list \"Upcoming\"" ∧
     things_list_specifier "anytime" = "list \"Anytime\"" ∧
     things_list_specifier "SomeDay" = "list \"Someday\"" ∧
     things_list_specifier "InBox" = "list \"Inbox\"" ∧
     things_list_specifier "completed" = "list \"Logbook\"") ∧
    (∀ s : String, list_mapping.lookup (pyLower s) = none →
      things_list_specifier s = "list \"Today\"") ∧
    (things_list_specifier "logbook" = "list \"Today\"" ∧
     things_list_specifier "Tomorrow" = "list \"Today\"") := by
  refine ⟨?_, by decide, ?_, by decide⟩
  · intro s t h
    unfold things_list_specifier
    rw [h]
  · intro s h
    unfold things_list_specifier
    rw [h]
    rfl

/-- Witness for C10: case-insensitive dispatch and the silent fallback at
concrete names. -/
theorem C10_list_name_matching_witness :
    things_list_specifier "TODAY" = things_list_specifier "today" ∧
    things_list_specifier "wunderlist" = "list \"Today\"" :=
  ⟨C10_list_name_matching.1 "TODAY" "today" (by decide),
   C10_list_name_matching.2.2.1 "wunderlist" (by decide)⟩

/-- The value a backslash escape denotes in an AppleScript string literal. -/
def unescapeASChar (c : Char) : Char :=
  if c = 'n' then '\n' else if c = 'r' then '\r' else if c = 't' then '\t' else c

/-- AppleScript string-literal body parsing, from just after the opening
quote: read characters until the terminating unescaped quote, honouring
backslash escapes; returns the denoted text and the remaining input. -/
def parseASLiteral : List Char → Option (List Char × List Char)
  | [] => none
  | c :: rest =>
    if c = '"' then some ([], rest)
    else if c = '\\' then
      match rest with
      | [] => none
      | e :: rest2 =>
        match parseASLiteral rest2 with
        | some (s, r) => some (unescapeASChar e :: s, r)
        | none => none
    else
      match parseASLiteral rest with
      | some (s, r) => some (c :: s, r)
      | none => none

/-- The input after the first occurrence of `marker`. -/
def afterFirst (marker : List Char) : List Char → Option (List Char)
  | [] => none
  | c :: rest =>
    if hasPrefixL marker (c :: rest) then some ((c :: rest).drop marker.length)
    else afterFirst marker rest

/-- Read the rendered `name:"…"` property of a built script back through the
AppleScript string-literal grammar. -/
def parsed_name_back (script : String) : Option String :=
  match afterFirst "name:\"".data script.data with
  | none => none
  | some rest =>
    match parseASLiteral rest with
    | none => none
    | some (content, _) => some (String.mk content)

/-- Read the rendered `set notes of targetToDo to "…"` value of an
`update_task` script back through the string-literal grammar. -/
def parsed_update_notes_back (script : String) : Option String :=
  match afterFirst "set notes of targetToDo to \"".data script.data with
  | none => none
  | some rest =>
    match parseASLiteral rest with
    | none => none
    | some (content, _) => some (String.mk content)

/-- Claim C1 (code bug): the round-trip escaping law fails.  For the title
`a"b`, `add_task` splices the quote character into the script unescaped, so
parsing the rendered `name:"…"` literal back through the scripting grammar
yields `a`, not the original string; likewise `update_task` with notes `x"y`
renders a literal that reads back as `x`.  The last conjunct exhibits the raw
splice in the rendered command text. -/
theorem C1_quote_escaping_roundtrip_fails :
    parsed_name_back (add_task_script "a\"b" "" none none none []) = some "a" ∧
    ("a" : String) ≠ "a\"b" ∧
    parsed_update_notes_back (update_task_script "T1" none (some "x\"y") none) = some "x" ∧
    ("x" : String) ≠ "x\"y" ∧
    containsStr (add_task_script "a\"b" "" none none none []) "name:\"a\"b\"" = true := by
  decide

/-- Counterexample to claim C3: `search_tasks` performs no sentinel mapping,
so a record whose title field is exactly `missing value` is passed through as
that literal text rather than an absent/empty value. -/
theorem C3_sentinel_passthrough_counterexample :
    parse_search_tasks_result "missing value|||abc|||open" =
      [{ title := "missing value", id := "abc", status := "open" }] ∧
    ("missing value" : String) ≠ "" := by
  decide

/-- Claim C3 as amended: only the notes, due-date and creation-date positions
of `list_tasks` map the sentinel `"missing value"` to an empty or absent
value (notes to `""`, the dates to `none`); every other field position —
title, id and status of `list_tasks`, and all three positions of
`search_tasks` and `list_projects` — passes the trimmed text through
literally, sentinel included. -/
theorem C3_sentinel_mapping_amended :
    (∀ p0 p1 p5 : List Char,
      parse_task_parts
          [p0, p1, "missing value".data, "missing value".data, "missing value".data, p5] =
        some
          { title := String.mk (pyTrim p0), id := String.mk (pyTrim p1), notes := "",
            due_date := none, creation_date := none, status := String.mk (pyTrim p5) }) ∧
    (parse_list_tasks_result "a|||b|||missing value|||missing value|||missing value|||open" =
      [{ title := "a", id := "b", notes := "", due_date := none, creation_date := none,
         status := "open" }]) ∧
    (∀ p1 p2 : List Char,
      parse_search_parts ["missing value".data, p1, p2] =
        some
          { title := "missing value", id := String.mk (pyTrim p1),
            status := String.mk (pyTrim p2) }) ∧
    (∀ p1 p2 : List Char,
      parse_project_parts ["missing value".data, p1, p2] =
        some
          { title := "missing value", id := String.mk (pyTrim p1),
            status := String.mk (pyTrim p2) }) := by
  have hmv : String.mk (pyTrim ("missing value".data)) = "missing value" := by decide
  refine ⟨?_, by decide, ?_, ?_⟩
  · intro p0 p1 p5
    simp [parse_task_parts, hmv]
  · intro p1 p2
    simp [parse_search_parts, hmv]
  · intro p1 p2
    simp [parse_project_parts, hmv]

/-- Claim C4: the parsers drop malformed records — a record with fewer than
the expected minimum number of fields (6 for `list_tasks`, 3 for
`search_tasks` and `list_projects`) yields no output record and no failure —
keep the well-formed records of the same batch, and return zero records on an
entirely empty input. -/
theorem C4_malformed_records_dropped :
    (parse_list_tasks_result "" = [] ∧ parse_search_tasks_result "" = [] ∧
     parse_list_projects_result "" = []) ∧
    (∀ parts : List (List Char), parts.length < 6 → parse_task_parts parts = none) ∧
    (∀ parts : List (List Char), parts.length < 3 → parse_search_parts parts = none) ∧
    (∀ parts : List (List Char), parts.length < 3 → parse_project_parts parts = none) ∧
    (parse_list_tasks_result "a|||b|||c|||d|||e|||f,garbage,x|||y" =
      [{ title := "a", id := "b", notes := "c", due_date := some "d",
         creation_date := some "e", status := "f" }]) ∧
    (parse_search_tasks_result "p|||q|||r|||s,bad,x|||y" =
      [{ title := "p", id := "q", status := "r" }]) ∧
    (parse_list_projects_result "p1|||i1|||open,junk,p2|||i2|||done" =
      [{ title := "p1", id := "i1", status := "open" },
       { title := "p2", id := "i2", status := "done" }]) := by
  refine ⟨by decide, ?_, ?_, ?_, by decide, by decide, by decide⟩
  · intro parts h
    rcases parts with _ | ⟨a, _ | ⟨b, _ | ⟨c, _ | ⟨d, _ | ⟨e, _ | ⟨f, rest⟩⟩⟩⟩⟩⟩
    · rfl
    · rfl
    · rfl
    · rfl
    · rfl
    · rfl
    · exfalso
      simp only [List.length_cons] at h
      omega
  · intro parts h
    rcases parts with _ | ⟨a, _ | ⟨b, _ | ⟨c, rest⟩⟩⟩
    · rfl
    · rfl
    · rfl
    · exfalso
      simp only [List.length_cons] at h
      omega
  · intro parts h
    rcases parts with _ | ⟨a, _ | ⟨b, _ | ⟨c, rest⟩⟩⟩
    · rfl
    · rfl
    · rfl
    · exfalso
      simp only [List.length_cons] at h
      omega

/-- Witness for C4 at a concrete two-field (malformed) record. -/
theorem C4_malformed_records_dropped_witness :
    parse_task_parts ["x".data, "y".data] = none :=
  C4_malformed_records_dropped.2.1 ["x".data, "y".data] (by decide)

theorem handle_call_tool_attempt_ok_single (run : List String → RunOutcome)
    (name : String) (args : ToolArgs) (texts : List String)
    (h : handle_call_tool_attempt run name args = Except.ok texts) : texts.length = 1 := by
  unfold handle_call_tool_attempt at h
  repeat' split at h
  all_goals first
    | (injection h with h2; rw [← h2]; simp)
    | injection h

/-- Claim C7: the dispatcher returns exactly one textual response for every
request — unknown operation names, missing required arguments and invoker
failures included — and renders every failure as a text naming the failed
operation and the underlying cause; no exception escapes the boundary (the
embedded dispatcher is a total function into response lists). -/
theorem C7_dispatcher_single_response :
    (∀ (run : List String → RunOutcome) (name : String) (args : ToolArgs),
      (handle_call_tool run name args).length = 1) ∧
    (∀ (run : List String → RunOutcome) (args : ToolArgs),
      handle_call_tool run "nonexistent_tool" args =
        ["Error executing nonexistent_tool: Unknown tool: nonexistent_tool"]) ∧
    (∀ run : List String → RunOutcome,
      handle_call_tool run "add_task" {} =
        ["Error executing add_task: " ++ keyErrorText "title"]) ∧
    (handle_call_tool (fun _ => RunOutcome.finished 1 "" "boom") "get_daily_overview" {} =
      ["Error executing get_daily_overview: Failed to execute AppleScript: AppleScript error: boom"]) ∧
    (handle_call_tool (fun _ => RunOutcome.timeout) "complete_task" { task_id := some "T1" } =
      ["Error executing complete_task: AppleScript execution timed out"]) := by
  refine ⟨?_, fun run args => rfl, fun run => rfl, rfl, rfl⟩
  intro run name args
  unfold handle_call_tool
  cases h : handle_call_tool_attempt run name args with
  | ok texts => exact handle_call_tool_attempt_ok_single run name args texts h
  | error e => rfl

/-- Three external tasks, two of which match the query `Call`. -/
def sample_today_tasks : List ExtTask :=
  [ExtTask.mk "Call Alice" "A1" "" "missing value" "missing value" "open",
   ExtTask.mk "Call Bob" "B2" "" "missing value" "missing value" "open",
   ExtTask.mk "Write report" "C3" "" "missing value" "missing value" "open"]

theorem list_tasks_loop_eq (limit i : Nat) (ts : List ExtTask) :
    list_tasks_loop limit i ts =
      ((ts.take (limit + 1 - i)).map list_task_info, min (limit + 1 - i) ts.length) := by
  induction ts generalizing i with
  | nil => simp [list_tasks_loop]
  | cons t ts2 ih =>
    by_cases hi : i > limit
    · have h0 : limit + 1 - i = 0 := by omega
      simp [list_tasks_loop, hi, h0]
    · have h1 : limit + 1 - i = (limit + 1 - (i + 1)) + 1 := by omega
      simp [list_tasks_loop, hi, ih (i + 1), h1, List.take_succ_cons, Nat.succ_min_succ]

theorem search_tasks_loop_bound (limit : Nat) (query : String) (ts : List ExtTask) :
    ∀ acc : List String, acc.length < limit →
      (search_tasks_loop limit query ts acc).1.length ≤ limit := by
  induction ts with
  | nil =>
    intro acc h
    simp only [search_tasks_loop]
    exact Nat.le_of_lt h
  | cons t ts2 ih =>
    intro acc h
    simp only [search_tasks_loop]
    split
    · split
      · simpa using h
      · rename_i hlt
        refine ih (acc ++ [search_task_info t]) ?_
        simp only [List.length_append, List.length_singleton] at hlt ⊢
        omega
    · exact ih acc h

/-- Claim C8 as amended: `list_tasks` bounds the result count by the limit
for every limit, with the stop condition `i > limit` evaluated before
processing each item, so exactly `min limit n` items are processed;
`search_tasks` evaluates its stop condition only after appending a matching
record, which bounds the result count by the limit only for limits ≥ 1.  The
closed conjuncts give the end-to-end example: with limit 2 over three
records, only two items are processed and the parsed result has exactly two
structured records; with limit 1 the search loop examines only the first
(matching) item. -/
theorem C8_limit_early_stop :
    (∀ (limit : Nat) (todos : List ExtTask),
      (list_tasks_traversal limit todos).1.length ≤ limit ∧
      (list_tasks_traversal limit todos).1 = (todos.take limit).map list_task_info ∧
      (list_tasks_traversal limit todos).2 = min limit todos.length) ∧
    (∀ (limit : Nat) (query : String) (todos : List ExtTask), 1 ≤ limit →
      (search_tasks_traversal limit query todos).1.length ≤ limit) ∧
    ((list_tasks_traversal 2 sample_today_tasks).2 = 2 ∧
     (parse_list_tasks_result
        (raw_response (list_tasks_traversal 2 sample_today_tasks).1)).length = 2) ∧
    ((search_tasks_traversal 1 "Call" sample_today_tasks).2 = 1) := by
  refine ⟨?_, ?_, by decide, by decide⟩
  · intro limit todos
    refine ⟨?_, ?_, ?_⟩
    · unfold list_tasks_traversal
      rw [list_tasks_loop_eq]
      simp [Nat.min_le_left]
    · unfold list_tasks_traversal
      rw [list_tasks_loop_eq]
      simp
    · unfold list_tasks_traversal
      rw [list_tasks_loop_eq]
      simp
  · intro limit query todos hpos
    unfold search_tasks_traversal
    exact search_tasks_loop_bound limit query todos [] (by simpa using hpos)

/-- Witness for C8: the list-side conjuncts applied at limit 0 (the boundary
value the correction is about) and the search-side bound applied at limit 2. -/
theorem C8_limit_early_stop_witness :
    (list_tasks_traversal 0 sample_today_tasks).1.length ≤ 0 ∧
    (search_tasks_traversal 2 "Call" sample_today_tasks).1.length ≤ 2 :=
  ⟨(C8_limit_early_stop.1 0 sample_today_tasks).1,
   C8_limit_early_stop.2.1 2 "Call" sample_today_tasks (by decide)⟩

/-- Counterexample to claim C8 as stated: with limit 0, the `search_tasks`
loop appends a matching record before evaluating its stop condition, so the
result count exceeds the limit — the stop condition is not evaluated before
processing each item. -/
theorem C8_search_limit_zero_counterexample :
    (search_tasks_traversal 0 "Call"
        [ExtTask.mk "Call Alice" "A1" "" "missing value" "missing value" "open"]).1.length = 1 ∧
    ¬ ((search_tasks_traversal 0 "Call"
        [ExtTask.mk "Call Alice" "A1" "" "missing value" "missing value" "open"]).1.length ≤ 0) := by
  decide

/-- Witness for the amended C3 at concrete field values. -/
theorem C3_sentinel_mapping_amended_witness :
    parse_task_parts
        ["a".data, "b".data, "missing value".data, "missing value".data,
         "missing value".data, "open".data] =
      some
        { title := "a", id := "b", notes := "", due_date := none, creation_date := none,
          status := "open" } :=
  C3_sentinel_mapping_amended.1 "a".data "b".data "open".data

/-- Witness for C5 at a concrete identifier. -/
theorem C5_lookup_fallback_witness :
    complete_task_outcome false false "T1" = "Task not found: " ++ "T1" :=
  C5_lookup_fallback.2.2.2.2.1 "T1"

/-- Witness for C7 at a concrete request. -/
theorem C7_dispatcher_single_response_witness :
    (handle_call_tool (fun _ => RunOutcome.timeout) "list_tasks" {}).length = 1 :=
  C7_dispatcher_single_response.1 (fun _ => RunOutcome.timeout) "list_tasks" {}
